import Mathlib

/-!
Shallow embedding of the NX-584 protocol engine of the
caddx-mqtt-controller repository (src/partition.py, src/caddx_controller.py),
with theorems settling the specification claims about it.
-/

namespace Caddx

/-! ## Partition condition flags (src/partition.py, PartitionConditionFlags) -/

namespace PartitionConditionFlags

def Armed : Nat := 0b01000000
def SirenOn : Nat := 0b0000001000000000
def SteadySirenOn : Nat := 0b0000010000000000
def EntryGuard : Nat := 0b000001000000000000000000
def ChimeMode : Nat := 0b000010000000000000000000
def Entry : Nat := 0b000100000000000000000000
def Exit1 : Nat := 0b010000000000000000000000
def Exit2 : Nat := 0b100000000000000000000000
def ReadyToArm : Nat := 0b0000010000000000000000000000000000000000
def ReadyToForceArm : Nat := 0b0000100000000000000000000000000000000000

end PartitionConditionFlags

/-- Partition alarm states (src/partition.py, Partition.State). -/
inductive State where
  | DISARMED
  | ARMED_HOME
  | ARMED_AWAY
  | PENDING
  | TRIGGERED
  | ARMING
  | DISARMING
deriving DecidableEq, Repr

open PartitionConditionFlags in
/-- The body of the `Partition.state` property for a received bitmap
(src/partition.py lines 218-238): Python `or` of truthiness of bit tests. -/
def stateOfFlags (f : Nat) : State :=
  if f &&& SirenOn ≠ 0 ∨ f &&& SteadySirenOn ≠ 0 then .TRIGGERED
  else if f &&& Armed ≠ 0 then
    if f &&& Exit1 ≠ 0 ∨ f &&& Exit2 ≠ 0 then .ARMING
    else if f &&& Entry ≠ 0 then .PENDING
    else if f &&& EntryGuard ≠ 0 then .ARMED_HOME
    else .ARMED_AWAY
  else if f &&& ReadyToArm ≠ 0 ∨ f &&& ReadyToForceArm ≠ 0 then .DISARMED
  else .PENDING

/-- The partition-state derivation exactly as the spec words it: a top-down,
first-match-wins chain over the named bits of the 48-bit bitmap, written here
with explicit bit positions (SirenOn=9, SteadySirenOn=10, Armed=6, Exit1=22,
Exit2=23, Entry=20, EntryGuard=18, ReadyToArm=34, ReadyToForceArm=35). -/
def specDerivedState (f : Nat) : State :=
  if f.testBit 9 ∨ f.testBit 10 then .TRIGGERED
  else if f.testBit 6 ∧ (f.testBit 22 ∨ f.testBit 23) then .ARMING
  else if f.testBit 6 ∧ f.testBit 20 then .PENDING
  else if f.testBit 6 ∧ f.testBit 18 then .ARMED_HOME
  else if f.testBit 6 then .ARMED_AWAY
  else if f.testBit 34 ∨ f.testBit 35 then .DISARMED
  else .PENDING

lemma and_two_pow_ne_zero (f k : Nat) : f &&& 2 ^ k ≠ 0 ↔ f.testBit k := by
  rw [Nat.and_two_pow]
  cases h : f.testBit k <;> simp [h, (Nat.two_pow_pos k).ne]

lemma stateOfFlags_eq_specDerivedState (f : Nat) :
    stateOfFlags f = specDerivedState f := by
  have e6 : (f &&& PartitionConditionFlags.Armed ≠ 0) ↔ f.testBit 6 := by
    have h : PartitionConditionFlags.Armed = 2 ^ 6 := by
      norm_num [PartitionConditionFlags.Armed]
    rw [h, and_two_pow_ne_zero]
  have e9 : (f &&& PartitionConditionFlags.SirenOn ≠ 0) ↔ f.testBit 9 := by
    have h : PartitionConditionFlags.SirenOn = 2 ^ 9 := by
      norm_num [PartitionConditionFlags.SirenOn]
    rw [h, and_two_pow_ne_zero]
  have e10 : (f &&& PartitionConditionFlags.SteadySirenOn ≠ 0) ↔ f.testBit 10 := by
    have h : PartitionConditionFlags.SteadySirenOn = 2 ^ 10 := by
      norm_num [PartitionConditionFlags.SteadySirenOn]
    rw [h, and_two_pow_ne_zero]
  have e18 : (f &&& PartitionConditionFlags.EntryGuard ≠ 0) ↔ f.testBit 18 := by
    have h : PartitionConditionFlags.EntryGuard = 2 ^ 18 := by
      norm_num [PartitionConditionFlags.EntryGuard]
    rw [h, and_two_pow_ne_zero]
  have e20 : (f &&& PartitionConditionFlags.Entry ≠ 0) ↔ f.testBit 20 := by
    have h : PartitionConditionFlags.Entry = 2 ^ 20 := by
      norm_num [PartitionConditionFlags.Entry]
    rw [h, and_two_pow_ne_zero]
  have e22 : (f &&& PartitionConditionFlags.Exit1 ≠ 0) ↔ f.testBit 22 := by
    have h : PartitionConditionFlags.Exit1 = 2 ^ 22 := by
      norm_num [PartitionConditionFlags.Exit1]
    rw [h, and_two_pow_ne_zero]
  have e23 : (f &&& PartitionConditionFlags.Exit2 ≠ 0) ↔ f.testBit 23 := by
    have h : PartitionConditionFlags.Exit2 = 2 ^ 23 := by
      norm_num [PartitionConditionFlags.Exit2]
    rw [h, and_two_pow_ne_zero]
  have e34 : (f &&& PartitionConditionFlags.ReadyToArm ≠ 0) ↔ f.testBit 34 := by
    have h : PartitionConditionFlags.ReadyToArm = 2 ^ 34 := by
      norm_num [PartitionConditionFlags.ReadyToArm]
    rw [h, and_two_pow_ne_zero]
  have e35 : (f &&& PartitionConditionFlags.ReadyToForceArm ≠ 0) ↔ f.testBit 35 := by
    have h : PartitionConditionFlags.ReadyToForceArm = 2 ^ 35 := by
      norm_num [PartitionConditionFlags.ReadyToForceArm]
    rw [h, and_two_pow_ne_zero]
  by_cases h6 : f.testBit 6 <;>
    simp [stateOfFlags, specDerivedState, e6, e9, e10, e18, e20, e22, e23,
      e34, e35, h6]

/-! ## Partition objects (src/partition.py, Partition) -/

/-- The per-partition state relevant to the state derivation: the index and
the optional 48-bit condition bitmap (src/partition.py, Partition.__init__
sets `condition_flags = None`). -/
structure Partition where
  index : Nat
  condition_flags : Option Nat
deriving DecidableEq, Repr

/-- `Partition.__init__`: a freshly created partition has no bitmap yet. -/
def Partition.init (index : Nat) : Partition :=
  { index := index, condition_flags := none }

/-- The `Partition.state` property (src/partition.py lines 199-238):
`None` until a bitmap arrives, otherwise derived from the bitmap. -/
def Partition.state (p : Partition) : Option State :=
  match p.condition_flags with
  | none => none
  | some f => some (stateOfFlags f)

/-! ## Fletcher-16 (src/caddx_controller.py, _calculate_fletcher16) -/

/-- One iteration of the `for byte in data` loop: both 8-bit accumulators
are reduced mod 255 after every byte. -/
def fletcherStep (s : Nat × Nat) (b : Nat) : Nat × Nat :=
  let s1 := (s.1 + b) % 255
  (s1, (s.2 + s1) % 255)

/-- The accumulator pair after folding the whole input, starting at (0, 0). -/
def fletcherSums (data : List Nat) : Nat × Nat :=
  data.foldl fletcherStep (0, 0)

/-- `_calculate_fletcher16`: fold the loop over the data and pack the two
accumulators as `(sum2 << 8) | sum1`. -/
def calculate_fletcher16 (data : List Nat) : Nat :=
  ((fletcherSums data).2 <<< 8) ||| (fletcherSums data).1

/-! ## Byte stuffing (src/caddx_controller.py, _send_direct and _read_message) -/

/-- The stuffing loop of `_send_direct` (lines 1091-1098): 0x7E becomes
0x7D 0x5E, 0x7D becomes 0x7D 0x5D, all other bytes pass through. -/
def stuffBytes : List Nat → List Nat
  | [] => []
  | i :: rest =>
    if i = 0x7E then 0x7D :: 0x5E :: stuffBytes rest
    else if i = 0x7D then 0x7D :: 0x5D :: stuffBytes rest
    else i :: stuffBytes rest

/-- The reader's unstuffing (lines 543-554), separated from framing: after a
0x7D, 0x5E decodes to 0x7E and 0x5D decodes to 0x7D; any other byte after
0x7D is an invalid escape sequence (`none`). -/
def unstuffBytes : List Nat → Option (List Nat)
  | [] => some []
  | b :: rest =>
    if b = 0x7D then
      match rest with
      | [] => none
      | c :: rest' =>
        if c = 0x5E then (unstuffBytes rest').map (fun l => 0x7E :: l)
        else if c = 0x5D then (unstuffBytes rest').map (fun l => 0x7D :: l)
        else none
    else (unstuffBytes rest).map (fun l => b :: l)

/-! ## Message catalog (src/caddx_controller.py, MessageType / MessageValidLength) -/

/-- `MessageValidLength`: total on-wire length (type byte + payload) for each
message-type code; `none` for codes that are not MessageType members. -/
def MessageValidLength : Nat → Option Nat
  | 0x01 => some 11
  | 0x03 => some 18
  | 0x04 => some 8
  | 0x05 => some 10
  | 0x06 => some 9
  | 0x07 => some 9
  | 0x08 => some 12
  | 0x09 => some 4
  | 0x0A => some 10
  | 0x0B => some 3
  | 0x10 => some 13
  | 0x12 => some 17
  | 0x1C => some 1
  | 0x1D => some 1
  | 0x1E => some 1
  | 0x1F => some 1
  | 0x21 => some 1
  | 0x23 => some 2
  | 0x24 => some 2
  | 0x25 => some 2
  | 0x26 => some 2
  | 0x27 => some 1
  | 0x28 => some 1
  | 0x29 => some 4
  | 0x2A => some 2
  | 0x2B => some 12
  | 0x2C => some 3
  | 0x30 => some 4
  | 0x31 => some 13
  | 0x32 => some 5
  | 0x33 => some 2
  | 0x34 => some 8
  | 0x35 => some 5
  | 0x36 => some 7
  | 0x37 => some 4
  | 0x3B => some 7
  | 0x3C => some 6
  | 0x3D => some 4
  | 0x3E => some 3
  | 0x3F => some 2
  | _ => none

/-- A code is a MessageType member exactly when the length table knows it
(the IntEnum's member codes and the table's domain coincide in the source). -/
def isMessageType (t : Nat) : Bool :=
  (MessageValidLength t).isSome

/-! ## Frame encoding (src/caddx_controller.py, _send_direct) -/

/-- `_send_direct`: build length byte, type byte (with ack bit 0x80 when
requested), payload, Fletcher-16 checksum (little-endian), stuff every byte,
then prepend the unstuffed start byte 0x7E.  Returns `none` when the message
type is unsupported or the length disagrees with the catalog (the source
logs and sends nothing). -/
def send_direct (message_type : Nat) (message_data : List Nat)
    (request_ack : Bool) : Option (List Nat) :=
  let message_length := 1 + message_data.length
  match MessageValidLength message_type with
  | none => none
  | some required =>
    if message_length ≠ required then none
    else
      let t := if request_ack then message_type ||| 0x80 else message_type
      let message := (message_length &&& 0xFF) :: (t &&& 0xFF) :: message_data
      let checksum := calculate_fletcher16 message
      let full := message ++ [checksum % 256, (checksum >>> 8) % 256]
      some (0x7E :: stuffBytes full)

/-! ## PIN packing (src/caddx_controller.py, pin_to_bytearray) -/

/-- The packing loop `for i in range(0, len(pin), 2)`: two decimal digits per
byte, high nibble first. -/
def packPinPairs : List Nat → List Nat
  | a :: b :: rest => ((a <<< 4) ||| b) :: packPinPairs rest
  | _ => []

/-- `pin_to_bytearray`: the PIN (given as its digit list) must have length
4 or 6, else `ValueError`; the result is the pre-zeroed 3-byte array with
the packed pairs written from the front. -/
def pin_to_bytearray (pin : List Nat) : Except String (List Nat) :=
  if pin.length = 4 ∨ pin.length = 6 then
    .ok ((packPinPairs pin ++ List.replicate 3 0).take 3)
  else
    .error "PIN must be 4 or 6 characters long"

/-! ## Bit helper and System Status handling (src/caddx_controller.py) -/

/-- `get_nth_bit`: extract the nth bit, 0-indexed from the LSB. -/
def get_nth_bit (num n : Nat) : Nat :=
  (num >>> n) &&& 1

/-- The partition indices for which `_process_system_status_rsp` (lines
953-961) enqueues a Partition Status Request before synchronization: the
loop is `for i in range(0, 7)`, enqueueing `i + 1` when bit `i` of the
8-bit partition mask is set. -/
def systemStatusPartitionRequests (partition_mask : Nat) : List Nat :=
  (List.range 7).filterMap
    (fun i => if get_nth_bit partition_mask i = 1 then some (i + 1) else none)

/-! ## Partition Status decoding (src/caddx_controller.py, _process_partition_status_rsp) -/

/-- Little-endian `int.from_bytes`. -/
def bytesToNatLE : List Nat → Nat
  | [] => 0
  | b :: rest => b + 256 * bytesToNatLE rest

/-- Lines 915-921: four low bytes (message[2:6], little-endian, masked to 32
bits) combined with two high bytes (message[7:9], masked to 16 bits, shifted
left 32) — message[6] is skipped. -/
def parseConditionFlags (message : List Nat) : Nat :=
  let condition_flags_low := bytesToNatLE ((message.drop 2).take 4) &&& 0xFFFFFFFF
  let condition_flags_high := (bytesToNatLE ((message.drop 7).take 2) &&& 0xFFFF) <<< 32
  condition_flags_low ||| condition_flags_high

/-- The partition-mutating effect of `_process_partition_status_rsp`: a
message whose length disagrees with the catalog (9) is discarded, otherwise
the 48-bit bitmap is assigned. -/
def processPartitionStatus (p : Partition) (message : List Nat) : Partition :=
  if message.length ≠ 9 then p
  else { p with condition_flags := some (parseConditionFlags message) }

/-! ## Reading a frame (src/caddx_controller.py, _read_message) -/

/-- Observable outcome of one `_read_message` call: the returned message (if
any), whether `reset_input_buffer` was called, and whether anything was
logged at error level. -/
structure ReadOutcome where
  msg : Option (List Nat)
  flushedInput : Bool
  loggedError : Bool
deriving DecidableEq, Repr

/-- The `for i in range(message_length + 2)` read loop (lines 541-555) over a
byte stream: a timed-out single-byte read extends nothing; 0x7D starts an
escape whose follow-up byte must be 0x5E or 0x5D (else `none`, the invalid
escape path); returns the accumulated data and the unconsumed stream. -/
def readLoop : Nat → List Nat → List Nat → Option (List Nat × List Nat)
  | 0, s, acc => some (acc, s)
  | n + 1, s, acc =>
    match s with
    | [] => readLoop n [] acc
    | b :: rest =>
      if b = 0x7D then
        match rest with
        | [] => none
        | c :: rest' =>
          if c = 0x5E then readLoop n rest' (acc ++ [0x7E])
          else if c = 0x5D then readLoop n rest' (acc ++ [0x7D])
          else none
      else readLoop n rest (acc ++ [b])

/-- `message_data[-2:]` interpreted little-endian (line 566). -/
def offeredChecksum (message_data : List Nat) : Nat :=
  match message_data.reverse with
  | hi :: lo :: _ => lo ||| (hi <<< 8)
  | _ => 0

/-- `_read_message` over a byte stream (lines 503-573).  An empty stream is
the zero-length (timeout) read, logged at debug level only.  A wrong start
byte, a missing length byte, an invalid escape and a wrong total length each
flush the input and log an error; a checksum mismatch logs an error and
discards without flushing; on success the checksum and length byte are
stripped and the message returned. -/
def read_message (stream : List Nat) : ReadOutcome :=
  match stream with
  | [] => ⟨none, false, false⟩
  | start :: s1 =>
    if start ≠ 0x7E then ⟨none, true, true⟩
    else
      match s1 with
      | [] => ⟨none, true, true⟩
      | lenB :: s2 =>
        match readLoop (lenB + 2) s2 [lenB] with
        | none => ⟨none, true, true⟩
        | some (message_data, _) =>
          if message_data.length ≠ lenB + 3 then ⟨none, true, true⟩
          else
            let offered := offeredChecksum message_data
            let body := message_data.take (message_data.length - 2)
            if offered ≠ calculate_fletcher16 body then ⟨none, false, true⟩
            else ⟨some (body.drop 1), false, false⟩

/-! ## Command-queue processing (src/caddx_controller.py, _process_command_queue) -/

/-- An inbound event while a command is pending: a read timeout, or a frame
identified by its first byte (the only byte the routing logic inspects). -/
inductive InEvent where
  | timeout
  | frame (b0 : Nat)
deriving DecidableEq, Repr

/-- Observable outcome of processing one pending command. -/
structure CmdOutcome where
  transmissions : Nat
  retriesLeft : Nat
  handlerRan : Bool
  rejected : Bool
  transitionsProcessed : Nat
deriving DecidableEq, Repr

/-- The inner `while retries > 0` loop of `_process_command_queue` (lines
988-1039), driven by the inbound event list; `dispatch` is the command's
`response_handler` key set.  A timeout decrements `retries` and re-sends
(even on the last retry); an unknown type code logs and continues; Rejected,
Failed, NACK abandon the command; a type not in the dispatch table, or an
acked frame, is processed as a transition message; a dispatch-table match
runs the handler and completes the command.  An exhausted event list returns
the loop state as observed. -/
def cmdLoop (dispatch : List Nat) :
    List InEvent → Nat → Nat → Nat → CmdOutcome
  | _, 0, tx, tr => ⟨tx, 0, false, false, tr⟩
  | [], r + 1, tx, tr => ⟨tx, r + 1, false, false, tr⟩
  | ev :: rest, r + 1, tx, tr =>
    match ev with
    | .timeout => cmdLoop dispatch rest r (tx + 1) tr
    | .frame b0 =>
      let t := b0 &&& 0b001111111
      let acked := b0 &&& 0b10000000 ≠ 0
      if ¬ isMessageType t then cmdLoop dispatch rest (r + 1) tx tr
      else if t = 0x1F ∨ t = 0x1C ∨ t = 0x1E then ⟨tx, r + 1, false, true, tr⟩
      else if t ∉ dispatch ∨ acked then
        cmdLoop dispatch rest (r + 1) tx (tr + 1)
      else ⟨tx, r + 1, true, false, tr⟩

/-- Processing one dequeued command: `retries = 3`, one initial
transmission, then the wait loop. -/
def runCommand (dispatch : List Nat) (events : List InEvent) : CmdOutcome :=
  cmdLoop dispatch events 3 1 0

/-! ## High-level intents (src/caddx_controller.py, send_disarm / send_arm_home / send_arm_away) -/

/-- Observable outcome of an arm/disarm intent call: whether an error was
logged and the (message type, keypad function code) commands enqueued. -/
structure IntentOutcome where
  loggedError : Bool
  enqueued : List (Nat × Nat)
deriving DecidableEq, Repr

/-- `send_primary_keypad_function` (lines 1283-1303): PIN variant (0x3C)
when a default code is configured, else the user-number variant (0x3D),
else an error and nothing queued. -/
def send_primary_keypad_function (hasDefaultCode hasDefaultUser : Bool)
    (function : Nat) : IntentOutcome :=
  if hasDefaultCode then ⟨false, [(0x3C, function)]⟩
  else if hasDefaultUser then ⟨false, [(0x3D, function)]⟩
  else ⟨true, []⟩

/-- `send_disarm` (lines 1305-1317): an already-DISARMED partition logs an
error and returns before queueing; otherwise Disarm (function code 1) is
queued. -/
def send_disarm (hasDefaultCode hasDefaultUser : Bool) (p : Partition) :
    IntentOutcome :=
  if p.state = some State.DISARMED then ⟨true, []⟩
  else send_primary_keypad_function hasDefaultCode hasDefaultUser 1

/-- `send_arm_home` (lines 1319-1334): an already-armed or arming partition
logs an error, but the code then falls through and still queues ArmStay
(function code 3). -/
def send_arm_home (hasDefaultCode hasDefaultUser : Bool) (p : Partition) :
    IntentOutcome :=
  let alreadyArmed :=
    p.state = some State.ARMED_HOME ∨ p.state = some State.ARMED_AWAY ∨
      p.state = some State.ARMING
  let inner := send_primary_keypad_function hasDefaultCode hasDefaultUser 3
  ⟨decide alreadyArmed || inner.loggedError, inner.enqueued⟩

/-- `send_arm_away` (lines 1336-1351): same fall-through as `send_arm_home`,
queueing ArmAway (function code 2). -/
def send_arm_away (hasDefaultCode hasDefaultUser : Bool) (p : Partition) :
    IntentOutcome :=
  let alreadyArmed :=
    p.state = some State.ARMED_HOME ∨ p.state = some State.ARMED_AWAY ∨
      p.state = some State.ARMING
  let inner := send_primary_keypad_function hasDefaultCode hasDefaultUser 2
  ⟨decide alreadyArmed || inner.loggedError, inner.enqueued⟩

/-! ## Theorems -/

/-- C1: the derived partition state is a pure function of the 48-bit
condition bitmap, evaluated top-down with first match winning: SirenOn or
SteadySirenOn yields TRIGGERED; otherwise Armed with Exit1 or Exit2 yields
ARMING; otherwise Armed with Entry yields PENDING; otherwise Armed with
EntryGuard yields ARMED_HOME; otherwise Armed yields ARMED_AWAY; otherwise
ReadyToArm or ReadyToForceArm yields DISARMED; any other bitmap yields
PENDING. -/
theorem C1_partition_state_derivation :
    ∀ f : Nat, stateOfFlags f = specDerivedState f :=
  stateOfFlags_eq_specDerivedState

/-- C2 (failing evaluation): the claim says every set bit i of the 8-bit
partition mask, including bit 7, enqueues a Partition Status Request for
partition i+1; but `_process_system_status_rsp` loops `for i in range(0, 7)`,
so a mask with only bit 7 set enqueues nothing at all — partition 8 is never
requested — while the lower seven bits all work. -/
theorem C2_partition_mask_bit7_dropped :
    get_nth_bit 0x80 7 = 1 ∧
      systemStatusPartitionRequests 0x80 = [] ∧
      (8 : Nat) ∉ systemStatusPartitionRequests 0xFF ∧
      systemStatusPartitionRequests 0xFF = [1, 2, 3, 4, 5, 6, 7] := by
  decide

/-- C3 (failing evaluation): `send_disarm` on a DISARMED partition does
refuse — error log, queue unchanged — but `send_arm_home` and
`send_arm_away` on an ARMED_HOME partition log the error and then fall
through, still enqueueing a Primary Keypad Function request (here with a
default code configured, type 0x3C with ArmStay=3 resp. ArmAway=2),
contradicting the claim that the command queue is unchanged. -/
theorem C3_arm_guard_evaluation :
    (Partition.mk 1 (some PartitionConditionFlags.ReadyToArm)).state =
        some State.DISARMED ∧
      send_disarm true false
          (Partition.mk 1 (some PartitionConditionFlags.ReadyToArm)) =
        ⟨true, []⟩ ∧
      (Partition.mk 1
            (some (PartitionConditionFlags.Armed |||
              PartitionConditionFlags.EntryGuard))).state =
        some State.ARMED_HOME ∧
      send_arm_home true false
          (Partition.mk 1
            (some (PartitionConditionFlags.Armed |||
              PartitionConditionFlags.EntryGuard))) =
        ⟨true, [(0x3C, 3)]⟩ ∧
      send_arm_away true false
          (Partition.mk 1
            (some (PartitionConditionFlags.Armed |||
              PartitionConditionFlags.EntryGuard))) =
        ⟨true, [(0x3C, 2)]⟩ := by
  decide

/-- C4: every pending command starts with a retry budget of 3 and one
transmission; a timeout decrements the budget and re-sends the request; a
frame of a known type that is neither Rejected, Failed nor NACK and is
absent from the dispatch table or has its ack bit set is processed as a
transition without consuming a retry; Rejected, Failed or NACK abandons the
command without retry; and the two-timeouts-then-match scenario ends with 3
transmissions, the handler run, and the retry counter at 1. -/
theorem C4_command_queue_retry :
    (∀ d : List Nat, runCommand d [] = ⟨1, 3, false, false, 0⟩) ∧
      (∀ (d : List Nat) rest r tx tr,
        cmdLoop d (InEvent.timeout :: rest) (r + 1) tx tr =
          cmdLoop d rest r (tx + 1) tr) ∧
      (∀ (d : List Nat) rest r tx tr b0,
        isMessageType (b0 &&& 0b001111111) = true →
        ¬(b0 &&& 0b001111111 = 0x1F ∨ b0 &&& 0b001111111 = 0x1C ∨
            b0 &&& 0b001111111 = 0x1E) →
        (b0 &&& 0b001111111 ∉ d ∨ b0 &&& 0b10000000 ≠ 0) →
        cmdLoop d (InEvent.frame b0 :: rest) (r + 1) tx tr =
          cmdLoop d rest (r + 1) tx (tr + 1)) ∧
      (∀ (d : List Nat) rest r tx tr b0,
        isMessageType (b0 &&& 0b001111111) = true →
        (b0 &&& 0b001111111 = 0x1F ∨ b0 &&& 0b001111111 = 0x1C ∨
            b0 &&& 0b001111111 = 0x1E) →
        cmdLoop d (InEvent.frame b0 :: rest) (r + 1) tx tr =
          ⟨tx, r + 1, false, true, tr⟩) ∧
      runCommand [0x03] [.timeout, .timeout, .frame 0x03] =
        ⟨3, 1, true, false, 0⟩ := by
  refine ⟨fun d => rfl, fun d rest r tx tr => rfl, ?_, ?_, by decide⟩
  · intro d rest r tx tr b0 h1 h2 h3
    simp [cmdLoop, h1, h2, h3]
  · intro d rest r tx tr b0 h1 h2
    simp [cmdLoop, h1, h2]

/-- Witness for C4: the transition and rejection cases at concrete inputs
(a ZoneNameReq command with dispatch table {0x03}; an interleaved Partition
Status frame 0x06 and a Rejected frame 0x1F). -/
theorem C4_command_queue_retry_witness :
    cmdLoop [0x03] [InEvent.frame 0x06] 3 1 0 = cmdLoop [0x03] [] 3 1 1 ∧
      cmdLoop [0x03] [InEvent.frame 0x1F] 3 1 0 = ⟨1, 3, false, true, 0⟩ :=
  ⟨C4_command_queue_retry.2.2.1 [0x03] [] 2 1 0 0x06 (by decide) (by decide)
      (by decide),
    C4_command_queue_retry.2.2.2.1 [0x03] [] 2 1 0 0x1F (by decide)
      (by decide)⟩

/-- C5: the Fletcher-16 checksum starts both accumulators at zero, updates
`sum1 = (sum1 + b) mod 255`, `sum2 = (sum2 + sum1) mod 255` for each byte in
order, and returns `(sum2 << 8) | sum1`; canonically
`fletcher16 [0x01, 0x21] = 0x2322` and `fletcher16 [] = 0`. -/
theorem C5_fletcher16 :
    calculate_fletcher16 [0x01, 0x21] = 0x2322 ∧
      calculate_fletcher16 [] = 0x0000 ∧
      fletcherSums [] = (0, 0) ∧
      (∀ (data : List Nat) (b : Nat),
        fletcherSums (data ++ [b]) =
          (((fletcherSums data).1 + b) % 255,
            ((fletcherSums data).2 + ((fletcherSums data).1 + b) % 255) %
              255)) ∧
      (∀ data : List Nat,
        calculate_fletcher16 data =
          ((fletcherSums data).2 <<< 8) ||| (fletcherSums data).1) := by
  refine ⟨by decide, by decide, rfl, ?_, fun data => rfl⟩
  intro data b
  simp [fletcherSums, List.foldl_append, fletcherStep]

/-- C6 counterexample: a complete frame whose checksum mismatches (type
0x1D with checksum bytes 00 00 instead of 1E 1F) logs an error and returns
no message but does NOT flush the serial input buffer, refuting the claim
that all four malformation cases flush. -/
theorem C6_checksum_mismatch_does_not_flush :
    (read_message [0x7E, 0x01, 0x1D, 0x00, 0x00]).msg = none ∧
      (read_message [0x7E, 0x01, 0x1D, 0x00, 0x00]).loggedError = true ∧
      (read_message [0x7E, 0x01, 0x1D, 0x00, 0x00]).flushedInput = false := by
  decide

/-- C6 (amended): an invalid start byte, an invalid escape sequence after
0x7D, and a wrong total length each discard the partial frame, flush the
serial input buffer, log at error level and return no message; a checksum
mismatch discards the frame, logs at error level and returns no message,
but does not flush the input buffer. -/
theorem C6_read_message_malformed :
    (∀ (b : Nat) (s : List Nat), b ≠ 0x7E →
        read_message (b :: s) = ⟨none, true, true⟩) ∧
      (∀ (lenB : Nat) (s2 : List Nat),
        readLoop (lenB + 2) s2 [lenB] = none →
        read_message (0x7E :: lenB :: s2) = ⟨none, true, true⟩) ∧
      (∀ (lenB : Nat) (s2 md rest : List Nat),
        readLoop (lenB + 2) s2 [lenB] = some (md, rest) →
        md.length ≠ lenB + 3 →
        read_message (0x7E :: lenB :: s2) = ⟨none, true, true⟩) ∧
      (∀ (lenB : Nat) (s2 md rest : List Nat),
        readLoop (lenB + 2) s2 [lenB] = some (md, rest) →
        md.length = lenB + 3 →
        offeredChecksum md ≠
          calculate_fletcher16 (md.take (md.length - 2)) →
        read_message (0x7E :: lenB :: s2) = ⟨none, false, true⟩) := by
  refine ⟨?_, ?_, ?_, ?_⟩
  · intro b s h
    simp [read_message, h]
  · intro lenB s2 h
    simp [read_message, h]
  · intro lenB s2 md rest h hl
    simp [read_message, h, hl]
  · intro lenB s2 md rest h hl hc
    rw [hl] at hc
    have hc' : ¬offeredChecksum md =
        calculate_fletcher16 (List.take (lenB + 1) md) := by
      simpa using hc
    simp [read_message, h, hl, hc']

/-- Witness for C6 (amended): the four branches at concrete streams — bad
start byte 0x00; escape 0x7D followed by 0x00; a truncated frame announcing
length 5; a full frame with a zeroed checksum. -/
theorem C6_read_message_malformed_witness :
    read_message [0x00] = ⟨none, true, true⟩ ∧
      read_message [0x7E, 0x01, 0x7D, 0x00, 0x00, 0x00] =
        ⟨none, true, true⟩ ∧
      read_message [0x7E, 0x05] = ⟨none, true, true⟩ ∧
      read_message [0x7E, 0x01, 0x1D, 0x00, 0x00] = ⟨none, false, true⟩ :=
  ⟨C6_read_message_malformed.1 0x00 [] (by decide),
    C6_read_message_malformed.2.1 0x01 [0x7D, 0x00, 0x00, 0x00] (by decide),
    C6_read_message_malformed.2.2.1 0x05 [] [0x05] [] (by decide) (by decide),
    C6_read_message_malformed.2.2.2 0x01 [0x1D, 0x00, 0x00]
      [0x01, 0x1D, 0x00, 0x00] [] (by decide) (by decide) (by decide)⟩

/-- C7: byte stuffing (0x7E to 0x7D 0x5E, 0x7D to 0x7D 0x5D, all other
bytes unchanged) is inverted by the reader's unstuffing, so
`unstuff (stuff x) = x` for every byte sequence; and encoding an Interface
Configuration Request (type 0x21, no payload) produces exactly the wire
bytes 7E 01 21 22 23, the start byte unstuffed in front. -/
theorem C7_stuffing_roundtrip :
    (∀ x : List Nat, unstuffBytes (stuffBytes x) = some x) ∧
      stuffBytes [0x7E] = [0x7D, 0x5E] ∧
      stuffBytes [0x7D] = [0x7D, 0x5D] ∧
      send_direct 0x21 [] false = some [0x7E, 0x01, 0x21, 0x22, 0x23] := by
  refine ⟨?_, by decide, by decide, by decide⟩
  intro x
  induction x with
  | nil => rfl
  | cons b rest ih =>
    by_cases h1 : b = 0x7E
    · simp [stuffBytes, unstuffBytes, h1, ih]
    · by_cases h2 : b = 0x7D
      · simp [stuffBytes, unstuffBytes, h1, h2, ih]
      · rw [stuffBytes, if_neg h1, if_neg h2, unstuffBytes.eq_def]
        simp [h2, ih]

/-- C8: `pin_to_bytearray` packs a 4- or 6-digit PIN into three BCD bytes,
high nibble first, with trailing zero bytes for 4-digit PINs, and raises a
ValueError for every other length. -/
theorem C8_pin_encoding :
    pin_to_bytearray [1, 2, 3, 4] = .ok [0x12, 0x34, 0x00] ∧
      pin_to_bytearray [1, 2, 3, 4, 5, 6] = .ok [0x12, 0x34, 0x56] ∧
      (∀ pin : List Nat, pin.length ≠ 4 → pin.length ≠ 6 →
        pin_to_bytearray pin =
          .error "PIN must be 4 or 6 characters long") := by
  refine ⟨rfl, rfl, ?_⟩
  intro pin h4 h6
  simp [pin_to_bytearray, h4, h6]

/-- Witness for C8: the 5-digit PIN 12345 is rejected. -/
theorem C8_pin_encoding_witness :
    pin_to_bytearray [1, 2, 3, 4, 5] =
      .error "PIN must be 4 or 6 characters long" :=
  C8_pin_encoding.2.2 [1, 2, 3, 4, 5] (by decide) (by decide)

/-- C9: a freshly created Partition has `condition_flags = none` and hence
state `none`; the derived state is `none` exactly when no condition bitmap
has been received; every valid (length-9) Partition Status message assigns
a bitmap, and every assigned bitmap fits in 48 bits. -/
theorem C9_state_none_iff_no_bitmap :
    (∀ i : Nat, (Partition.init i).condition_flags = none ∧
        (Partition.init i).state = none) ∧
      (∀ p : Partition, p.state = none ↔ p.condition_flags = none) ∧
      (∀ (p : Partition) (message : List Nat), message.length = 9 →
        (processPartitionStatus p message).condition_flags =
          some (parseConditionFlags message)) ∧
      (∀ message : List Nat, parseConditionFlags message < 2 ^ 48) := by
  refine ⟨fun i => ⟨rfl, rfl⟩, ?_, ?_, ?_⟩
  · intro p
    cases h : p.condition_flags <;> simp [Partition.state, h]
  · intro p message h
    simp [processPartitionStatus, h]
  · intro message
    unfold parseConditionFlags
    have hlow : bytesToNatLE (List.take 4 (List.drop 2 message)) &&&
        0xFFFFFFFF < 2 ^ 48 := by
      have := Nat.and_le_right
        (n := bytesToNatLE (List.take 4 (List.drop 2 message)))
        (m := 0xFFFFFFFF)
      omega
    have hhigh : (bytesToNatLE (List.take 2 (List.drop 7 message)) &&&
        0xFFFF) <<< 32 < 2 ^ 48 := by
      have h16 : bytesToNatLE (List.take 2 (List.drop 7 message)) &&&
          0xFFFF < 2 ^ 16 := by
        have := Nat.and_le_right
          (n := bytesToNatLE (List.take 2 (List.drop 7 message)))
          (m := 0xFFFF)
        omega
      simpa using Nat.shiftLeft_lt h16 (m := 32)
    exact Nat.bitwise_lt hlow hhigh

/-- Witness for C9: applying the update clause to a concrete length-9
Partition Status message on a fresh partition. -/
theorem C9_state_none_iff_no_bitmap_witness :
    (processPartitionStatus (Partition.init 1)
        [0x00, 0x00, 0x44, 0x00, 0x00, 0x00, 0x00, 0x04, 0x00]).condition_flags =
      some (parseConditionFlags
        [0x00, 0x00, 0x44, 0x00, 0x00, 0x00, 0x00, 0x04, 0x00]) :=
  C9_state_none_iff_no_bitmap.2.2.1 (Partition.init 1)
    [0x00, 0x00, 0x44, 0x00, 0x00, 0x00, 0x00, 0x04, 0x00] (by decide)

/-- C10: for every bitmap the derived state is one of exactly six values —
TRIGGERED, ARMING, PENDING, ARMED_HOME, ARMED_AWAY or DISARMED — never
DISARMING; and the State type consists of exactly the seven listed
constructors, so no UNKNOWN state is representable. -/
theorem C10_state_closed_set :
    (∀ f : Nat, stateOfFlags f ≠ State.DISARMING ∧
        (stateOfFlags f = State.TRIGGERED ∨ stateOfFlags f = State.ARMING ∨
          stateOfFlags f = State.PENDING ∨
          stateOfFlags f = State.ARMED_HOME ∨
          stateOfFlags f = State.ARMED_AWAY ∨
          stateOfFlags f = State.DISARMED)) ∧
      (∀ s : State, s = State.DISARMED ∨ s = State.ARMED_HOME ∨
        s = State.ARMED_AWAY ∨ s = State.PENDING ∨ s = State.TRIGGERED ∨
        s = State.ARMING ∨ s = State.DISARMING) := by
  constructor
  · intro f
    unfold stateOfFlags
    split_ifs <;> simp
  · intro s
    cases s <;> simp

end Caddx
